import Mathlib

/-
Verification of the `ExpressionMatcher` expression compiler (src/match.py).

The program parses a boolean filter expression with Python's `ast` module in
`eval` mode, rewrites the resulting syntax tree with an `ast.NodeTransformer`
whose single `generic_visit` method either replaces a node, passes it through
while visiting its children, or raises a `SyntaxError`, and finally evaluates
the rewritten tree with Python's `eval` against a runtime `items` collection.

The shallow embedding below mirrors that pipeline:
  * `Expr` models the fragment of Python's `ast` expression nodes the program
    can encounter, together with their source locations;
  * `generic_visit` models `ExpressionMatcher.Transformer.generic_visit`
    (including the implicit recursion performed by
    `ast.NodeTransformer.generic_visit` for the pass-through cases);
  * `pyEval` models Python's evaluation of the rewritten tree with the
    local binding `{"items": items}`;
  * `normalizeExpression` models the `if not expression:` normalization in
    `ExpressionMatcher.__init__`.

The external parser `ast.parse` is not part of the repository; where a claim
is about a concrete source string, the tree that `ast.parse` produces for it
(with its exact 0-based column offsets) is given as an explicit fixture.
-/

/-- Source location attributes carried by Python `ast` expression nodes.
`lineno` is 1-based, `col_offset` is 0-based, `end_col_offset` is the 0-based
exclusive end column.  The `end_*` attributes are optional in Python; a
missing value is modelled as `0`, which the code's `x or y` fallback idiom
treats exactly like `None` (both are falsy). -/
structure Pos where
  lineno : Nat
  col_offset : Nat
  end_lineno : Nat
  end_col_offset : Nat
deriving Repr, DecidableEq

/-- Python `x or y` on the optional location integers: falsy (`None`, here `0`)
falls back to the second operand. -/
def orNat (a b : Nat) : Nat :=
  if a = 0 then b else a

/-- Expression contexts of `ast.Name` nodes (`ast.Load`, `ast.Store`,
`ast.Del`).  Trees parsed in `eval` mode only contain `Load`. -/
inductive ExprContext where
  | load
  | store
  | del
deriving Repr, DecidableEq

/-- The two `ast.boolop` operator nodes `ast.And` and `ast.Or`. -/
inductive BoolOpKind where
  | andOp
  | orOp
deriving Repr, DecidableEq

/-- The `ast.unaryop` operator nodes: `ast.Not`, `ast.USub`, `ast.UAdd`,
`ast.Invert`. -/
inductive UnaryOpKind where
  | notOp
  | uSub
  | uAdd
  | invert
deriving Repr, DecidableEq

/-- A selection of `ast.operator` nodes used by `ast.BinOp`
(`ast.Add`, `ast.Sub`, `ast.Mult`, `ast.Div`).  `generic_visit` never
inspects which operator a `BinOp` carries. -/
inductive BinOpKind where
  | add
  | sub
  | mult
  | div
deriving Repr, DecidableEq

/-- A selection of `ast.cmpop` comparison operator nodes.  The rewriter only
ever constructs `ast.In`; `ast.Compare` nodes in the input are rejected. -/
inductive CmpOpKind where
  | inOp
  | notInOp
  | eqOp
  | ltOp
  | gtOp
deriving Repr, DecidableEq

/-- Values carried by `ast.Constant` nodes: string, integer and boolean
literals.  (Float literals exist in Python but no claim involves them.) -/
inductive PyVal where
  | str (s : String)
  | int (n : Int)
  | bool (b : Bool)
deriving Repr, DecidableEq

/-- Python `str()` applied to a constant's value, as in
`ast.Constant(value=str(value))`. -/
def pyStr : PyVal → String
  | .str s => s
  | .int n => toString n
  | .bool true => "True"
  | .bool false => "False"

/-- A keyword argument of an `ast.Call`.  `generic_visit` only ever tests
whether the `keywords` list is empty and never looks inside an element, so
the payload of a keyword argument is not modelled. -/
inductive Keyword where
  | mk
deriving Repr, DecidableEq

/-- The fragment of Python `ast` expression nodes relevant to the program:
`ast.Name`, `ast.Constant`, `ast.BoolOp`, `ast.UnaryOp`, `ast.BinOp`,
`ast.Call`, `ast.Compare`, and the `ast.Expression` root wrapper produced by
`ast.parse(..., mode="eval")`.  `ast.Expression` carries no location
attributes, matching Python. -/
inductive Expr where
  | name (id : String) (ctx : ExprContext) (pos : Pos)
  | const (value : PyVal) (pos : Pos)
  | boolop (op : BoolOpKind) (values : List Expr) (pos : Pos)
  | unaryop (op : UnaryOpKind) (operand : Expr) (pos : Pos)
  | binop (left : Expr) (op : BinOpKind) (right : Expr) (pos : Pos)
  | call (func : Expr) (args : List Expr) (keywords : List Keyword) (pos : Pos)
  | compare (left : Expr) (ops : List CmpOpKind) (comparators : List Expr) (pos : Pos)
  | expression (body : Expr)

/-- The structured content of the `SyntaxError` raised by
`ExpressionMatcher.Transformer.error`: message, 1-based line, 1-based column
(`col_offset + 1`), and the offending expression text. -/
structure CompileError where
  msg : String
  lineno : Nat
  offset : Nat
  text : String
deriving Repr, DecidableEq

/-- `ExpressionMatcher.Transformer.error`: builds the `SyntaxError` payload,
turning the 0-based `col_offset` into a 1-based column. -/
def Transformer.error (expression : String) (msg : String) (lineno : Nat)
    (col_offset : Nat) : CompileError :=
  ⟨msg, lineno, col_offset + 1, expression⟩

/-- The name of the runtime collection variable (`items_var` in the source). -/
def itemsVar : String := "items"

/-- Placeholder location for nodes synthesized by the rewriter.  The source
constructs them without locations and later runs `ast.fix_missing_locations`;
the locations of synthesized nodes are never consulted afterwards. -/
def defaultPos : Pos := ⟨1, 0, 1, 0⟩

mutual

/-- `ExpressionMatcher.Transformer.generic_visit`, combined with the child
recursion that `ast.NodeTransformer.generic_visit` (the `super()` call)
performs for the pass-through cases.  The match arms appear in the source's
order; the four `ast.Call(func=ast.Name(...))` arms of the source are
consolidated into one arm whose sequential tests preserve the source's
dispatch order (a `Call` node never matches the pass-through patterns that
the source places between them).  The bare operator nodes `ast.Or`,
`ast.And`, `ast.Not` that the source lists as pass-through cases are plain
enumeration fields here and have no children to visit. -/
def generic_visit (expression : String) : Expr → Except CompileError Expr
  | .name id .load _ =>
      -- case ast.Name(id=id, ctx=ast.Load())
      .ok (.compare (.const (.str id) defaultPos) [.inOp]
        [.name itemsVar .load defaultPos] defaultPos)
  | .const v _ =>
      -- case ast.Constant(value=value)
      .ok (.compare (.const (.str (pyStr v)) defaultPos) [.inOp]
        [.name itemsVar .load defaultPos] defaultPos)
  | .call (.name f _ pf) args kws p =>
      if f == "empty" && args.isEmpty && kws.isEmpty then
        -- case ast.Call(func=ast.Name(id="empty"), args=[], keywords=[])
        .ok (.unaryop .notOp (.name itemsVar .load defaultPos) defaultPos)
      else if f == "anything" && args.isEmpty && kws.isEmpty then
        -- case ast.Call(func=ast.Name(id="anything"), args=[], keywords=[])
        .ok (.const (.bool true) defaultPos)
      else if f == "empty" || f == "anything" then
        -- case ast.Call(func=ast.Name(id="empty" | "anything" as func)):
        -- point the error to the argument list
        .error (Transformer.error expression
          ("invalid syntax, " ++ f ++ "() does not accept any argument")
          (orNat pf.end_lineno p.lineno) (orNat pf.end_col_offset p.col_offset))
      else
        -- case ast.Call(func=ast.Name())
        .error (Transformer.error expression "invalid syntax, unknown function"
          p.lineno p.col_offset)
  | .expression body => do
      -- case ast.Expression(): pass, then super().generic_visit visits `body`
      let b ← generic_visit expression body
      .ok (.expression b)
  | .boolop op vs p => do
      -- case ast.BoolOp(op=ast.Or() | ast.And()): pass, then children visited
      let vs2 ← visit_list expression vs
      .ok (.boolop op vs2 p)
  | .unaryop .notOp e p => do
      -- case ast.UnaryOp(op=ast.Not()): pass, then the operand is visited
      let e2 ← generic_visit expression e
      .ok (.unaryop .notOp e2 p)
  | .binop (.name _ _ pl) _ _ p =>
      -- case ast.BinOp(left=ast.Name()): point the error to the operator
      .error (Transformer.error expression "invalid syntax, unsupported operation"
        (orNat pl.end_lineno p.lineno) (orNat pl.end_col_offset p.col_offset))
  | .name _ _ p =>
      -- wildcard case (a Name in a non-Load context)
      .error (Transformer.error expression "invalid syntax" p.lineno (p.col_offset + 1))
  | .unaryop _ _ p =>
      -- wildcard case (a unary operator other than `not`)
      .error (Transformer.error expression "invalid syntax" p.lineno (p.col_offset + 1))
  | .binop _ _ _ p =>
      -- wildcard case (a binary operation whose left operand is not a Name)
      .error (Transformer.error expression "invalid syntax" p.lineno (p.col_offset + 1))
  | .call _ _ _ p =>
      -- wildcard case (a call whose callee is not a plain Name)
      .error (Transformer.error expression "invalid syntax" p.lineno (p.col_offset + 1))
  | .compare _ _ _ p =>
      -- wildcard case (comparisons are not part of the restricted grammar)
      .error (Transformer.error expression "invalid syntax" p.lineno (p.col_offset + 1))

/-- The field traversal of `ast.NodeTransformer.generic_visit`: each child of
a pass-through node is visited in order, and the first raised `SyntaxError`
aborts the whole transformation. -/
def visit_list (expression : String) : List Expr → Except CompileError (List Expr)
  | [] => .ok []
  | e :: es => do
      let t ← generic_visit expression e
      let ts ← visit_list expression es
      .ok (t :: ts)

end

/-- The normalization in `ExpressionMatcher.__init__`:
`if not expression: expression = "anything()"`.  Both `None` and the empty
string are falsy in Python. -/
def normalizeExpression : Option String → String
  | none => "anything()"
  | some s => if s = "" then "anything()" else s

/-- The runtime collection shapes supported by the matcher: a set of strings
(exact-equality membership), an ordered sequence of strings (exact-equality
membership), and raw text (Python `in` on `str` is substring containment). -/
inductive Items where
  | set (elems : List String)
  | seq (elems : List String)
  | text (s : String)
deriving Repr, DecidableEq

/-- Python runtime values that can appear while evaluating a rewritten tree:
booleans, strings, integers, and the two modelled collection shapes.  A raw
text collection is simply a Python `str`. -/
inductive PyObj where
  | bool (b : Bool)
  | str (s : String)
  | int (n : Int)
  | setV (elems : List String)
  | listV (elems : List String)
deriving Repr, DecidableEq

/-- The Python object bound to the `items` variable. -/
def Items.toObj : Items → PyObj
  | .set es => .setV es
  | .seq es => .listV es
  | .text s => .str s

/-- Python truthiness: `bool(x)`.  Collections and strings are truthy iff
non-empty, integers iff non-zero. -/
def PyObj.truthy : PyObj → Bool
  | .bool b => b
  | .str s => !s.data.isEmpty
  | .int n => !(n == 0)
  | .setV es => !es.isEmpty
  | .listV es => !es.isEmpty

/-- Whether the first character list starts the second one. -/
def leadMatch : List Char → List Char → Bool
  | [], _ => true
  | _ :: _, [] => false
  | a :: as, b :: bs => a == b && leadMatch as bs

/-- Whether the first character list occurs contiguously inside the second. -/
def substringIn (key : List Char) : List Char → Bool
  | [] => leadMatch key []
  | c :: rest => leadMatch key (c :: rest) || substringIn key rest

/-- Python `key in hay` on two `str` values: substring containment. -/
def strContains (hay key : String) : Bool :=
  substringIn key.data hay.data

/-- Errors Python evaluation could raise: an unbound variable (`NameError`),
an ill-typed `in` (`TypeError`), and a marker for node shapes that never
occur in rewritten trees and whose full Python semantics is therefore not
modelled. -/
inductive EvalError where
  | nameError
  | typeError
  | unsupportedNode
deriving Repr, DecidableEq

/-- Python's `in` operator, `key in container`: substring containment on
`str`, element equality on sets and lists of strings (a non-string key is
simply unequal to every string element), `TypeError` on non-containers. -/
def pyContains : PyObj → PyObj → Except EvalError Bool
  | .str k, .str s => .ok (strContains s k)
  | .str k, .setV es => .ok (es.contains k)
  | .str k, .listV es => .ok (es.contains k)
  | _, .setV _ => .ok false
  | _, .listV _ => .ok false
  | _, _ => .error .typeError

mutual

/-- Python's evaluation of a (rewritten) expression tree against the locals
`{"items": items}`, as performed by the closure in
`ExpressionMatcher.__init__`:

    def matches(items):
        match = eval(compiled, {}, {"items": items})
        return match

`and`/`or` return one of their operand values, `not` returns a strict
boolean, `in` dispatches on the container.  Node shapes that cannot occur in
a rewritten tree (calls, binary arithmetic, comparison chains other than a
single `in`) are mapped to `EvalError.unsupportedNode`. -/
def pyEval (it : Items) : Expr → Except EvalError PyObj
  | .expression body => pyEval it body
  | .const v _ =>
      .ok (match v with
        | .str s => .str s
        | .int n => .int n
        | .bool b => .bool b)
  | .name id _ _ => if id = itemsVar then .ok it.toObj else .error .nameError
  | .boolop .andOp vs _ => eval_and it vs
  | .boolop .orOp vs _ => eval_or it vs
  | .unaryop .notOp e _ => do
      let v ← pyEval it e
      .ok (.bool (!v.truthy))
  | .compare l [.inOp] [c] _ => do
      let lv ← pyEval it l
      let cv ← pyEval it c
      let b ← pyContains lv cv
      .ok (.bool b)
  | _ => .error .unsupportedNode

/-- Python `and` over the operand list of an `ast.BoolOp`: evaluate left to
right, return the first falsy value, else the last value.  The parser never
produces an empty operand list. -/
def eval_and (it : Items) : List Expr → Except EvalError PyObj
  | [] => .error .unsupportedNode
  | [e] => pyEval it e
  | e :: f :: rest => do
      let v ← pyEval it e
      if v.truthy then eval_and it (f :: rest) else .ok v

/-- Python `or` over the operand list of an `ast.BoolOp`: evaluate left to
right, return the first truthy value, else the last value. -/
def eval_or (it : Items) : List Expr → Except EvalError PyObj
  | [] => .error .unsupportedNode
  | [e] => pyEval it e
  | e :: f :: rest => do
      let v ← pyEval it e
      if v.truthy then .ok v else eval_or it (f :: rest)

end

/-- Number of elements of a collection (`len(items)`). -/
def Items.size : Items → Nat
  | .set es => es.length
  | .seq es => es.length
  | .text s => s.data.length

/-- Containment of a textual key in a collection, the specification-side
notion the claims quantify over: exact element equality for sets and
sequences, substring containment for raw text. -/
def Items.containsKey : Items → String → Bool
  | .set es, k => es.contains k
  | .seq es, k => es.contains k
  | .text s, k => strContains s k

mutual

/-- Structural well-formedness guaranteed by `ast.parse`: every `ast.BoolOp`
node carries at least two operands (Python's grammar produces a `BoolOp`
only for an `and`/`or` chain, which has two or more operands). -/
def WF : Expr → Bool
  | .name _ _ _ => true
  | .const _ _ => true
  | .boolop _ vs _ => decide (2 ≤ vs.length) && WFList vs
  | .unaryop _ e _ => WF e
  | .binop l _ r _ => WF l && WF r
  | .call f args _ _ => WF f && WFList args
  | .compare l _ cs _ => WF l && WFList cs
  | .expression b => WF b

/-- `WF` on every element of a child list. -/
def WFList : List Expr → Bool
  | [] => true
  | e :: es => WF e && WFList es

end

/-- Reduction of monadic bind on an `Except` success. -/
theorem okBind {α β ε : Type} (a : α) (f : α → Except ε β) :
    ((Except.ok a : Except ε α) >>= f) = f a := rfl

/-- Reduction of monadic bind on an `Except` failure. -/
theorem errBind {α β ε : Type} (e : ε) (f : α → Except ε β) :
    ((Except.error e : Except ε α) >>= f) = .error e := rfl

/-- Every member of the list evaluates to a strict boolean. -/
def AllBool (it : Items) (ts : List Expr) : Prop :=
  ∀ t ∈ ts, ∃ b : Bool, pyEval it t = .ok (.bool b)

/-- Evaluating the membership tree the rewriter synthesizes for a key tests
containment of the key in the collection, per collection kind. -/
theorem pyEval_membership (it : Items) (k : String) (p q r : Pos) :
    pyEval it (.compare (.const (.str k) p) [.inOp] [.name itemsVar .load q] r) =
      .ok (.bool (it.containsKey k)) := by
  cases it <;> rfl

/-- Evaluating the `not items` tree synthesized for `empty()` yields the
emptiness of the collection. -/
theorem pyEval_emptiness (it : Items) (p q : Pos) :
    pyEval it (.unaryop .notOp (.name itemsVar .load p) q) =
      .ok (.bool (it.size == 0)) := by
  cases it with
  | set es => cases es <;> rfl
  | seq es => cases es <;> rfl
  | text s => cases s with
    | mk l => cases l <;> rfl

/-- A non-empty `and` chain of strict booleans evaluates to a strict
boolean. -/
theorem eval_and_bool (it : Items) :
    ∀ ts : List Expr, ts ≠ [] → AllBool it ts →
      ∃ b : Bool, eval_and it ts = .ok (.bool b)
  | [], hne, _ => absurd rfl hne
  | [e], _, h => by
      obtain ⟨b, hb⟩ := h e (by simp)
      exact ⟨b, by simp [eval_and, hb]⟩
  | e :: f :: rest, _, h => by
      obtain ⟨b, hb⟩ := h e (by simp)
      obtain ⟨c, hc⟩ := eval_and_bool it (f :: rest) (by simp)
        (fun t ht => h t (List.mem_cons_of_mem _ ht))
      cases b with
      | false => exact ⟨false, by simp [eval_and, okBind, hb, PyObj.truthy]⟩
      | true => exact ⟨c, by simp [eval_and, okBind, hb, PyObj.truthy, hc]⟩

/-- A non-empty `or` chain of strict booleans evaluates to a strict
boolean. -/
theorem eval_or_bool (it : Items) :
    ∀ ts : List Expr, ts ≠ [] → AllBool it ts →
      ∃ b : Bool, eval_or it ts = .ok (.bool b)
  | [], hne, _ => absurd rfl hne
  | [e], _, h => by
      obtain ⟨b, hb⟩ := h e (by simp)
      exact ⟨b, by simp [eval_or, hb]⟩
  | e :: f :: rest, _, h => by
      obtain ⟨b, hb⟩ := h e (by simp)
      obtain ⟨c, hc⟩ := eval_or_bool it (f :: rest) (by simp)
        (fun t ht => h t (List.mem_cons_of_mem _ ht))
      cases b with
      | true => exact ⟨true, by simp [eval_or, okBind, hb, PyObj.truthy]⟩
      | false => exact ⟨c, by simp [eval_or, okBind, hb, PyObj.truthy, hc]⟩

mutual

/-- Master lemma: on a well-formed parse tree, a successful rewrite produces
a tree whose evaluation against any collection returns a strict boolean
(in particular, evaluation cannot raise). -/
theorem visit_eval_bool : ∀ (it : Items) (src : String) (e t : Expr),
    WF e = true → generic_visit src e = .ok t →
    ∃ b : Bool, pyEval it t = .ok (.bool b)
  | it, src, .name id ctx p, t, _, h => by
      cases ctx with
      | load =>
          simp only [generic_visit, Except.ok.injEq] at h
          exact ⟨_, h ▸ pyEval_membership it id defaultPos defaultPos defaultPos⟩
      | store => simp [generic_visit] at h
      | del => simp [generic_visit] at h
  | it, src, .const v p, t, _, h => by
      simp only [generic_visit, Except.ok.injEq] at h
      exact ⟨_, h ▸ pyEval_membership it (pyStr v) defaultPos defaultPos defaultPos⟩
  | it, src, .call fn args kws p, t, _, h => by
      cases fn with
      | name f c pf =>
          simp only [generic_visit] at h
          split at h
          · obtain rfl := Except.ok.inj h
            exact ⟨_, pyEval_emptiness it defaultPos defaultPos⟩
          · split at h
            · obtain rfl := Except.ok.inj h
              exact ⟨true, rfl⟩
            · split at h
              · exact absurd h (by simp)
              · exact absurd h (by simp)
      | const v q => simp [generic_visit] at h
      | boolop op vs q => simp [generic_visit] at h
      | unaryop k e q => simp [generic_visit] at h
      | binop l k r q => simp [generic_visit] at h
      | call g as ks q => simp [generic_visit] at h
      | compare l os cs q => simp [generic_visit] at h
      | expression b => simp [generic_visit] at h
  | it, src, .expression body, t, hw, h => by
      rw [show WF (.expression body) = WF body from rfl] at hw
      simp only [generic_visit] at h
      cases hb : generic_visit src body with
      | error err => rw [hb] at h; exact absurd h (by simp [okBind, errBind])
      | ok b =>
          rw [hb] at h
          simp only [okBind, Except.ok.injEq] at h
          obtain ⟨c, hc⟩ := visit_eval_bool it src body b hw hb
          exact ⟨c, by rw [← h]; simpa [pyEval] using hc⟩
  | it, src, .boolop op vs p, t, hw, h => by
      rw [show WF (.boolop op vs p) = (decide (2 ≤ vs.length) && WFList vs) from rfl] at hw
      rw [Bool.and_eq_true, decide_eq_true_eq] at hw
      simp only [generic_visit] at h
      cases hv : visit_list src vs with
      | error err => rw [hv] at h; exact absurd h (by simp [okBind, errBind])
      | ok vs2 =>
          rw [hv] at h
          simp only [okBind, Except.ok.injEq] at h
          obtain ⟨hlen, hall⟩ := visitList_eval_bool it src vs vs2 hw.2 hv
          have hne : vs2 ≠ [] := by
            intro hnil
            rw [hnil] at hlen
            simp only [List.length_nil] at hlen
            have h2 := hw.1
            omega
          cases op with
          | andOp =>
              obtain ⟨b, hb⟩ := eval_and_bool it vs2 hne hall
              exact ⟨b, by rw [← h]; simpa [pyEval] using hb⟩
          | orOp =>
              obtain ⟨b, hb⟩ := eval_or_bool it vs2 hne hall
              exact ⟨b, by rw [← h]; simpa [pyEval] using hb⟩
  | it, src, .unaryop k e p, t, hw, h => by
      cases k with
      | notOp =>
          rw [show WF (.unaryop .notOp e p) = WF e from rfl] at hw
          simp only [generic_visit] at h
          cases he : generic_visit src e with
          | error err => rw [he] at h; exact absurd h (by simp [okBind, errBind])
          | ok e2 =>
              rw [he] at h
              simp only [okBind, Except.ok.injEq] at h
              obtain ⟨b, hb⟩ := visit_eval_bool it src e e2 hw he
              exact ⟨!b, by rw [← h]; simp [pyEval, okBind, hb, PyObj.truthy]⟩
      | uSub => simp [generic_visit] at h
      | uAdd => simp [generic_visit] at h
      | invert => simp [generic_visit] at h
  | it, src, .binop l k r p, t, _, h => by
      cases l <;> simp [generic_visit] at h
  | it, src, .compare l os cs p, t, _, h => by
      simp [generic_visit] at h
theorem visitList_eval_bool : ∀ (it : Items) (src : String) (es ts : List Expr),
    WFList es = true → visit_list src es = .ok ts →
    ts.length = es.length ∧ AllBool it ts
  | it, src, [], ts, _, h => by
      simp only [visit_list, Except.ok.injEq] at h
      exact ⟨by rw [← h], by intro t ht; rw [← h] at ht; cases ht⟩
  | it, src, e :: es, ts, hw, h => by
      rw [show WFList (e :: es) = (WF e && WFList es) from rfl, Bool.and_eq_true] at hw
      simp only [visit_list] at h
      cases he : generic_visit src e with
      | error err => rw [he] at h; exact absurd h (by simp [okBind, errBind])
      | ok t =>
          rw [he] at h
          cases hes : visit_list src es with
          | error err => rw [hes] at h; exact absurd h (by simp [okBind, errBind])
          | ok ts2 =>
              rw [hes] at h
              simp only [okBind, Except.ok.injEq] at h
              obtain ⟨hlen, hall⟩ := visitList_eval_bool it src es ts2 hw.2 hes
              obtain ⟨b, hb⟩ := visit_eval_bool it src e t hw.1 he
              refine ⟨by rw [← h]; simp [hlen], ?_⟩
              intro u hu
              rw [← h] at hu
              rcases List.mem_cons.mp hu with rfl | hu2
              · exact ⟨b, hb⟩
              · exact hall u hu2
end

/-- Python keywords: a lone token equal to one of these never parses as an
`ast.Name` (e.g. `True` parses as a constant, `and` is a syntax error). -/
def pythonKeywords : List String :=
  ["False", "None", "True", "and", "as", "assert", "async", "await", "break",
   "class", "continue", "def", "del", "elif", "else", "except", "finally",
   "for", "from", "global", "if", "import", "in", "is", "lambda", "nonlocal",
   "not", "or", "pass", "raise", "return", "try", "while", "with", "yield"]

/-- An ASCII identifier start character. -/
def isIdentStart (c : Char) : Bool :=
  c.isAlpha || c == '_'

/-- An ASCII identifier continuation character. -/
def isIdentCont (c : Char) : Bool :=
  c.isAlphanum || c == '_'

/-- A valid (ASCII) Python identifier that is not a keyword: exactly the
single-token inputs that `ast.parse` turns into a lone `ast.Name` in `eval`
mode. -/
def isValidIdent (s : String) : Bool :=
  match s.data with
  | [] => false
  | c :: rest => isIdentStart c && rest.all isIdentCont && !pythonKeywords.contains s

/-- The tree `ast.parse(x, mode="eval")` produces when the string `x` is a
single valid identifier: an `Expression` whose body is a lone `Name`
spanning columns `0` to `x.length`. -/
def identExpr (x : String) : Expr :=
  .expression (.name x .load ⟨1, 0, 1, x.length⟩)

/-- `ast.parse("anything()", mode="eval")`. -/
def astAnythingCall : Expr :=
  .expression (.call (.name "anything" .load ⟨1, 0, 1, 8⟩) [] [] ⟨1, 0, 1, 10⟩)

/-- `ast.parse("empty()", mode="eval")`. -/
def astEmptyCall : Expr :=
  .expression (.call (.name "empty" .load ⟨1, 0, 1, 5⟩) [] [] ⟨1, 0, 1, 7⟩)

/-- `ast.parse("foo + 1", mode="eval")`. -/
def astFooPlus1 : Expr :=
  .expression (.binop (.name "foo" .load ⟨1, 0, 1, 3⟩) .add
    (.const (.int 1) ⟨1, 6, 1, 7⟩) ⟨1, 0, 1, 7⟩)

/-- `ast.parse("foo()", mode="eval")`. -/
def astFooCall : Expr :=
  .expression (.call (.name "foo" .load ⟨1, 0, 1, 3⟩) [] [] ⟨1, 0, 1, 5⟩)

/-- `ast.parse("empty(1)", mode="eval")`. -/
def astEmptyOne : Expr :=
  .expression (.call (.name "empty" .load ⟨1, 0, 1, 5⟩)
    [.const (.int 1) ⟨1, 6, 1, 7⟩] [] ⟨1, 0, 1, 8⟩)

/-- `ast.parse("x or y", mode="eval")`. -/
def astXorY : Expr :=
  .expression (.boolop .orOp
    [.name "x" .load ⟨1, 0, 1, 1⟩, .name "y" .load ⟨1, 5, 1, 6⟩] ⟨1, 0, 1, 6⟩)

/-- `ast.parse("z", mode="eval")`. -/
def astZ : Expr :=
  .expression (.name "z" .load ⟨1, 0, 1, 1⟩)

/-- `ast.parse("not (x or y or z)", mode="eval")`: Python flattens the `or`
chain into a single three-operand `BoolOp`. -/
def astNotXYZ : Expr :=
  .expression (.unaryop .notOp
    (.boolop .orOp
      [.name "x" .load ⟨1, 5, 1, 6⟩, .name "y" .load ⟨1, 10, 1, 11⟩,
       .name "z" .load ⟨1, 15, 1, 16⟩] ⟨1, 5, 1, 16⟩) ⟨1, 0, 1, 17⟩)

/-- `ast.parse("(not x or y) and (not z)", mode="eval")`: `not` binds
tighter than `or`, so the left conjunct parses as `(not x) or y`. -/
def astDeMorganRHS : Expr :=
  .expression (.boolop .andOp
    [.boolop .orOp
      [.unaryop .notOp (.name "x" .load ⟨1, 5, 1, 6⟩) ⟨1, 1, 1, 6⟩,
       .name "y" .load ⟨1, 10, 1, 11⟩] ⟨1, 1, 1, 11⟩,
     .unaryop .notOp (.name "z" .load ⟨1, 22, 1, 23⟩) ⟨1, 18, 1, 23⟩]
    ⟨1, 0, 1, 24⟩)

/-- `ast.parse("foo and bar", mode="eval")`. -/
def astFooAndBar : Expr :=
  .expression (.boolop .andOp
    [.name "foo" .load ⟨1, 0, 1, 3⟩, .name "bar" .load ⟨1, 8, 1, 11⟩]
    ⟨1, 0, 1, 11⟩)

/-- C1: for every valid identifier `x`, the predicate compiled from the
expression consisting of `x` alone returns true on an items collection iff
`x` is contained in it — exact element equality for set-like collections and
ordered sequences of strings, substring containment for raw text. -/
theorem identifier_matches_iff_contained (x : String) (it : Items)
    (_hx : isValidIdent x = true) :
    ∃ t, generic_visit x (identExpr x) = .ok t ∧
      pyEval it t = .ok (.bool (it.containsKey x)) := by
  exact ⟨_, rfl, pyEval_membership it x defaultPos defaultPos defaultPos⟩

/-- Witness for C1 at the identifier "foo" against the raw text
"foobarbaz", where substring containment makes the membership test true. -/
theorem identifier_matches_iff_contained_witness :
    isValidIdent "foo" = true ∧
    (Items.text "foobarbaz").containsKey "foo" = true ∧
    ∃ t, generic_visit "foo" (identExpr "foo") = .ok t ∧
      pyEval (.text "foobarbaz") t = .ok (.bool true) := by
  refine ⟨by decide, by decide, ?_⟩
  have h := identifier_matches_iff_contained "foo" (.text "foobarbaz") (by decide)
  rwa [show (Items.text "foobarbaz").containsKey "foo" = true from rfl] at h

/-- C2: `None` and the empty string normalize to the same source text as
"anything()", so all three inputs compile the same tree, and the resulting
predicate evaluates to `True` on every collection, including the empty
ones. -/
theorem none_and_empty_equal_anything :
    normalizeExpression none = normalizeExpression (some "anything()") ∧
    normalizeExpression (some "") = normalizeExpression (some "anything()") ∧
    ∃ t, generic_visit (normalizeExpression none) astAnythingCall = .ok t ∧
      ∀ it : Items, pyEval it t = .ok (.bool true) :=
  ⟨rfl, rfl, .expression (.const (.bool true) defaultPos), rfl, fun _ => rfl⟩

/-- C3: the predicate compiled from "empty()" evaluates to true iff the
items collection has zero elements. -/
theorem empty_call_matches_iff_empty (it : Items) :
    ∃ t, generic_visit "empty()" astEmptyCall = .ok t ∧
      pyEval it t = .ok (.bool (it.size == 0)) :=
  ⟨.expression (.unaryop .notOp (.name itemsVar .load defaultPos) defaultPos),
    rfl, pyEval_emptiness it defaultPos defaultPos⟩

/-- C4 counterexample: compiling "foo + 1" reports "invalid syntax,
unsupported operation" at 1-based column 4 — the position immediately after
the left operand "foo", which holds a space — while the `+` operator sits at
0-based index 4, i.e. 1-based column 5; the reported column is not the
operator's position. -/
theorem binop_error_column_counterexample :
    generic_visit "foo + 1" astFooPlus1 =
      .error ⟨"invalid syntax, unsupported operation", 1, 4, "foo + 1"⟩ ∧
    "foo + 1".data.get? 4 = some '+' ∧
    (4 : Nat) ≠ 4 + 1 :=
  ⟨rfl, rfl, by decide⟩

/-- C4 (amended): applying a binary operator to a left operand that is an
identifier fails with "invalid syntax, unsupported operation", and the
reported 1-based column is one past the 0-based end of the left operand —
the first column after the identifier, which is the operator's own position
only when the operator immediately follows the identifier. -/
theorem binop_error_column (src id : String) (c : ExprContext) (pl : Pos)
    (op : BinOpKind) (r : Expr) (p : Pos)
    (h1 : pl.end_lineno ≠ 0) (h2 : pl.end_col_offset ≠ 0) :
    generic_visit src (.expression (.binop (.name id c pl) op r p)) =
      .error ⟨"invalid syntax, unsupported operation", pl.end_lineno,
        pl.end_col_offset + 1, src⟩ := by
  simp [generic_visit, Transformer.error, orNat, h1, h2, okBind, errBind]

/-- Witness for the amended C4 at the parse of "foo + 1": the left operand
"foo" ends at 0-based column 3, so the reported column is 4. -/
theorem binop_error_column_witness :
    (⟨1, 0, 1, 3⟩ : Pos).end_col_offset ≠ 0 ∧
    generic_visit "foo + 1" astFooPlus1 =
      .error ⟨"invalid syntax, unsupported operation", 1, 4, "foo + 1"⟩ :=
  ⟨by decide, binop_error_column "foo + 1" "foo" .load ⟨1, 0, 1, 3⟩ .add
    (.const (.int 1) ⟨1, 6, 1, 7⟩) ⟨1, 0, 1, 7⟩ (by decide) (by decide)⟩

/-- C5: calling `empty` or `anything` with one or more arguments (positional
or keyword) fails with "invalid syntax, <name>() does not accept any
argument", and the reported 1-based column is one past the 0-based end of
the callee name — the start of the argument list rather than the start of
the whole call. -/
theorem call_with_args_error (src f : String) (c : ExprContext) (pf : Pos)
    (args : List Expr) (kws : List Keyword) (p : Pos)
    (hf : f = "empty" ∨ f = "anything")
    (hargs : args ≠ [] ∨ kws ≠ [])
    (h1 : pf.end_lineno ≠ 0) (h2 : pf.end_col_offset ≠ 0) :
    generic_visit src (.expression (.call (.name f c pf) args kws p)) =
      .error ⟨"invalid syntax, " ++ f ++ "() does not accept any argument",
        pf.end_lineno, pf.end_col_offset + 1, src⟩ := by
  have hae : (args.isEmpty && kws.isEmpty) = false := by
    rcases hargs with ha | hk
    · cases args with
      | nil => exact absurd rfl ha
      | cons a as => rfl
    · cases kws with
      | nil => exact absurd rfl hk
      | cons b bs => simp
  rcases hf with rfl | rfl <;>
    simp [generic_visit, Transformer.error, orNat, h1, h2, okBind, errBind,
      Bool.and_assoc, hae]

/-- Witness for C5 at the parse of "empty(1)": the callee name ends at
0-based column 5, so the reported column is 6 — the position of the opening
parenthesis of the argument list. -/
theorem call_with_args_error_witness :
    generic_visit "empty(1)" astEmptyOne =
      .error ⟨"invalid syntax, empty() does not accept any argument",
        1, 6, "empty(1)"⟩ ∧
    "empty(1)".data.get? 5 = some '(' :=
  ⟨call_with_args_error "empty(1)" "empty" .load ⟨1, 0, 1, 5⟩
    [.const (.int 1) ⟨1, 6, 1, 7⟩] [] ⟨1, 0, 1, 8⟩ (Or.inl rfl)
    (Or.inl (List.cons_ne_nil _ _)) (by decide) (by decide), rfl⟩

/-- C6: calling any function name other than `empty` or `anything` fails
with "invalid syntax, unknown function", and the reported 1-based column is
the start of the call. -/
theorem unknown_function_error (src f : String) (c : ExprContext) (pf : Pos)
    (args : List Expr) (kws : List Keyword) (p : Pos)
    (h1 : f ≠ "empty") (h2 : f ≠ "anything") :
    generic_visit src (.expression (.call (.name f c pf) args kws p)) =
      .error ⟨"invalid syntax, unknown function", p.lineno,
        p.col_offset + 1, src⟩ := by
  simp [generic_visit, Transformer.error, h1, h2, okBind, errBind]

/-- Witness for C6 at the parse of "foo()": the call starts at 0-based
column 0, so the reported column is 1. -/
theorem unknown_function_error_witness :
    generic_visit "foo()" astFooCall =
      .error ⟨"invalid syntax, unknown function", 1, 1, "foo()"⟩ :=
  unknown_function_error "foo()" "foo" .load ⟨1, 0, 1, 3⟩ [] [] ⟨1, 0, 1, 5⟩
    (by decide) (by decide)

/-- C7: for every well-formed parse tree that compiles successfully,
evaluating the compiled predicate is total over every supported collection
shape: it always returns a value and never an error — the only failure mode
of the program is the compile-time `SyntaxError`. -/
theorem eval_never_fails (src : String) (e t : Expr) (hw : WF e = true)
    (h : generic_visit src e = .ok t) (it : Items) :
    ∃ v, pyEval it t = .ok v := by
  obtain ⟨b, hb⟩ := visit_eval_bool it src e t hw h
  exact ⟨.bool b, hb⟩

/-- Witness for C7 at the parse of "empty()" evaluated on an empty
sequence. -/
theorem eval_never_fails_witness :
    WF astEmptyCall = true ∧
    ∃ v, pyEval (Items.seq [])
      (.expression (.unaryop .notOp (.name itemsVar .load defaultPos)
        defaultPos)) = .ok v :=
  ⟨rfl, eval_never_fails "empty()" astEmptyCall
    (.expression (.unaryop .notOp (.name itemsVar .load defaultPos) defaultPos))
    rfl rfl (Items.seq [])⟩

/-- C8 counterexample: with the compilable sub-expressions a = "x or y" and
b = "z", the string "not (" + a + " or " + b + ")" parses as a flat
three-operand `or` under `not`, while "(not " + a + ") and (not " + b + ")"
parses as `((not x) or y) and (not z)` because `not` binds tighter than
`or`; on the collection {"y"} the first compiled predicate yields `False`
and the second yields `True`, so the two predicates are not extensionally
equal. -/
theorem demorgan_counterexample :
    ("not (" ++ "x or y" ++ " or " ++ "z" ++ ")" = "not (x or y or z)") ∧
    ("(not " ++ "x or y" ++ ") and (not " ++ "z" ++ ")" =
      "(not x or y) and (not z)") ∧
    (∃ ta, generic_visit "x or y" astXorY = .ok ta) ∧
    (∃ tb, generic_visit "z" astZ = .ok tb) ∧
    (∃ t1, generic_visit "not (x or y or z)" astNotXYZ = .ok t1 ∧
      pyEval (.set ["y"]) t1 = .ok (.bool false)) ∧
    (∃ t2, generic_visit "(not x or y) and (not z)" astDeMorganRHS = .ok t2 ∧
      pyEval (.set ["y"]) t2 = .ok (.bool true)) :=
  ⟨rfl, rfl, ⟨_, rfl⟩, ⟨_, rfl⟩, ⟨_, rfl, rfl⟩, ⟨_, rfl, rfl⟩⟩

/-- C8 (amended): De Morgan consistency holds for the parse trees
`not (a or b)` and `(not a) and (not b)` — the parses of the claim's two
strings once the interpolated sub-expressions are parenthesized, i.e.
"not ((" + a + ") or (" + b + "))" and "(not (" + a + ")) and (not (" + b +
"))": whenever the sub-trees compile, both compiled predicates evaluate to
the same boolean on every collection. -/
theorem demorgan_extensional (src : String) (ea eb ta tb : Expr)
    (p1 p2 p3 p4 p5 : Pos) (it : Items)
    (hwa : WF ea = true) (hwb : WF eb = true)
    (ha : generic_visit src ea = .ok ta) (hb : generic_visit src eb = .ok tb) :
    ∃ b : Bool,
      (generic_visit src (.expression (.unaryop .notOp
        (.boolop .orOp [ea, eb] p1) p2))).map (pyEval it) =
          .ok (.ok (.bool b)) ∧
      (generic_visit src (.expression (.boolop .andOp
        [.unaryop .notOp ea p3, .unaryop .notOp eb p4] p5))).map (pyEval it) =
          .ok (.ok (.bool b)) := by
  obtain ⟨x, hx⟩ := visit_eval_bool it src ea ta hwa ha
  obtain ⟨y, hy⟩ := visit_eval_bool it src eb tb hwb hb
  refine ⟨!(x || y), ?_, ?_⟩ <;>
    cases x <;> cases y <;>
      simp [generic_visit, visit_list, ha, hb, okBind, errBind, Except.map,
        pyEval, eval_or, eval_and, hx, hy, PyObj.truthy]

/-- Witness for the amended C8 at the sub-trees of "x" and "y" evaluated on
the collection {"y"}. -/
theorem demorgan_extensional_witness :
    ∃ b : Bool,
      (generic_visit "x" (.expression (.unaryop .notOp
        (.boolop .orOp [.name "x" .load defaultPos, .name "y" .load defaultPos]
          defaultPos) defaultPos))).map (pyEval (Items.set ["y"])) =
            .ok (.ok (.bool b)) ∧
      (generic_visit "x" (.expression (.boolop .andOp
        [.unaryop .notOp (.name "x" .load defaultPos) defaultPos,
         .unaryop .notOp (.name "y" .load defaultPos) defaultPos]
        defaultPos))).map (pyEval (Items.set ["y"])) = .ok (.ok (.bool b)) :=
  demorgan_extensional "x" (.name "x" .load defaultPos)
    (.name "y" .load defaultPos) _ _ defaultPos defaultPos defaultPos
    defaultPos defaultPos (Items.set ["y"]) rfl rfl rfl rfl

/-- C9: a string or number literal is rewritten into a membership test on
the textual form of its value; for a number literal that textual form is its
decimal string, so compiling `42` yields a predicate that is true exactly on
collections containing the string "42". -/
theorem literal_membership (v : PyVal) (p : Pos) (src : String) (it : Items) :
    (∃ t, generic_visit src (.expression (.const v p)) = .ok t ∧
      pyEval it t = .ok (.bool (it.containsKey (pyStr v)))) ∧
    (∀ n : Nat, pyStr (.int (Int.ofNat n)) = Nat.repr n) ∧
    (Items.seq ["42"]).containsKey (pyStr (.int 42)) = true :=
  ⟨⟨_, rfl, pyEval_membership it (pyStr v) defaultPos defaultPos defaultPos⟩,
    fun _ => rfl, rfl⟩

/-- C10: for every well-formed parse tree that compiles successfully, the
evaluation of the compiled predicate returns a strict boolean — although
Python's `and`/`or` return one of their operand values, every leaf of a
rewritten tree (membership test, emptiness check, the constant `True`)
evaluates to a boolean, so the chain result is always exactly `True` or
`False`. -/
theorem eval_returns_strict_bool (src : String) (e t : Expr)
    (hw : WF e = true) (h : generic_visit src e = .ok t) (it : Items) :
    ∃ b : Bool, pyEval it t = .ok (.bool b) :=
  visit_eval_bool it src e t hw h

/-- Witness for C10 at the parse of "foo and bar" evaluated on the raw text
"foobarbaz". -/
theorem eval_returns_strict_bool_witness :
    WF astFooAndBar = true ∧
    ∃ b : Bool, pyEval (Items.text "foobarbaz")
      (.expression (.boolop .andOp
        [.compare (.const (.str "foo") defaultPos) [.inOp]
          [.name itemsVar .load defaultPos] defaultPos,
         .compare (.const (.str "bar") defaultPos) [.inOp]
          [.name itemsVar .load defaultPos] defaultPos]
        ⟨1, 0, 1, 11⟩)) = .ok (.bool b) :=
  ⟨rfl, eval_returns_strict_bool "foo and bar" astFooAndBar
    (.expression (.boolop .andOp
      [.compare (.const (.str "foo") defaultPos) [.inOp]
        [.name itemsVar .load defaultPos] defaultPos,
       .compare (.const (.str "bar") defaultPos) [.inOp]
        [.name itemsVar .load defaultPos] defaultPos]
      ⟨1, 0, 1, 11⟩)) rfl rfl (Items.text "foobarbaz")⟩
